import Mathlib

/- Shallow embedding of the Astroid-Classic game core (TypeScript source).
   Continuous quantities (positions, velocities, timers in milliseconds)
   are modelled as rationals; counters as naturals or integers.  The
   JavaScript Math.sqrt appears in the source only inside comparisons or
   guarded by a zero test, so it is either parametrised or replaced by the
   equivalent squared comparison, as noted at each definition.  Rendering,
   audio and particle calls mutate no simulation state and are elided. -/

structure Vec where
  x : ℚ
  y : ℚ
deriving DecidableEq

/-- Vector2Utils.create (src/unnamed/part_008). -/
def Vector2Utils.create (x y : ℚ) : Vec := ⟨x, y⟩

/-- Vector2Utils.add (src/unnamed/part_008). -/
def Vector2Utils.add (a b : Vec) : Vec := ⟨a.x + b.x, a.y + b.y⟩

/-- Vector2Utils.subtract (src/unnamed/part_008). -/
def Vector2Utils.subtract (a b : Vec) : Vec := ⟨a.x - b.x, a.y - b.y⟩

/-- Vector2Utils.multiply (src/unnamed/part_008). -/
def Vector2Utils.multiply (v : Vec) (s : ℚ) : Vec := ⟨v.x * s, v.y * s⟩

/-- Square of Vector2Utils.magnitude: the source computes
    Math.sqrt(v.x * v.x + v.y * v.y); we keep the radicand, and every use
    of the magnitude below is either parametrised over the square-root
    function or a comparison rewritten equivalently through the square. -/
def Vector2Utils.magSq (v : Vec) : ℚ := v.x * v.x + v.y * v.y

/-- Vector2Utils.normalize, parametrised over the square-root function
    supplied by the runtime (JavaScript Math.sqrt).  Source: mag =
    magnitude(v); if (mag === 0) return zero; else divide components. -/
def Vector2Utils.normalize (sqrt : ℚ → ℚ) (v : Vec) : Vec :=
  let mag := sqrt (Vector2Utils.magSq v)
  if mag = 0 then ⟨0, 0⟩ else ⟨v.x / mag, v.y / mag⟩

/-- Square of Vector2Utils.distance between two points. -/
def Vector2Utils.distSq (a b : Vec) : ℚ :=
  Vector2Utils.magSq (Vector2Utils.subtract a b)

/-- C10: Vector2Utils.normalize applied to the zero vector (magnitude 0)
    returns the zero vector rather than dividing by zero, and on every
    other input the division actually performed has a nonzero divisor, so
    the result is well defined (finite) for every finite input.  The only
    fact used about the square root is sqrt 0 = 0, true of any
    implementation, IEEE Math.sqrt included. -/
theorem C10_normalize_zero_guard (sqrt : ℚ → ℚ) (h0 : sqrt 0 = 0) :
    Vector2Utils.normalize sqrt ⟨0, 0⟩ = ⟨0, 0⟩ ∧
    ∀ v : Vec, Vector2Utils.normalize sqrt v = ⟨0, 0⟩ ∨
      (sqrt (Vector2Utils.magSq v) ≠ 0 ∧
        Vector2Utils.normalize sqrt v =
          ⟨v.x / sqrt (Vector2Utils.magSq v),
           v.y / sqrt (Vector2Utils.magSq v)⟩) := by
  constructor
  · have hm : Vector2Utils.magSq ⟨0, 0⟩ = 0 := by
      simp [Vector2Utils.magSq]
    simp [Vector2Utils.normalize, hm, h0]
  · intro v
    by_cases h : sqrt (Vector2Utils.magSq v) = 0
    · left
      simp [Vector2Utils.normalize, h]
    · right
      exact ⟨h, by simp [Vector2Utils.normalize, h]⟩

/-- Witness for C10 at the identity square root: normalize of the zero
    vector is the zero vector. -/
theorem C10_normalize_zero_guard_witness :
    Vector2Utils.normalize id ⟨0, 0⟩ = ⟨0, 0⟩ :=
  (C10_normalize_zero_guard id rfl).1

/- ===== Asteroid (src/unnamed/part_002) ===== -/

inductive AsteroidSize where
  | large
  | medium
  | small
deriving DecidableEq

/-- Asteroid.getRadiusForSize. -/
def Asteroid.getRadiusForSize : AsteroidSize → ℚ
  | AsteroidSize.large => 40
  | AsteroidSize.medium => 25
  | AsteroidSize.small => 15

/-- Asteroid.getScoreForSize. -/
def Asteroid.getScoreForSize : AsteroidSize → ℚ
  | AsteroidSize.large => 20
  | AsteroidSize.medium => 50
  | AsteroidSize.small => 100

/-- State of an Asteroid.  The irregular polygon vertices generated at
    construction are consumed only by render and are elided. -/
structure Asteroid where
  position : Vec
  velocity : Vec
  rotation : ℚ
  radius : ℚ
  active : Bool
  rotationSpeed : ℚ
  size : AsteroidSize
deriving DecidableEq

/-- The Asteroid constructor: radius is a pure function of the size
    class, the GameObject base sets rotation 0 and active true, and
    rotationSpeed = (Math.random() - 0.5) * 2 with rotRand the draw. -/
def Asteroid.new (position velocity : Vec) (size : AsteroidSize)
    (rotRand : ℚ) : Asteroid :=
  { position := position
    velocity := velocity
    rotation := 0
    radius := Asteroid.getRadiusForSize size
    active := true
    rotationSpeed := (rotRand - 1/2) * 2
    size := size }

/-- Randomness consumed by Asteroid.split for fragment i: speedRand i is
    the Math.random() draw in speed = 50 + rand * 100; dirVec i stands
    for (cos angle, sin angle) of the random angle draw, hence a unit
    vector; rotRand i is the constructor draw of the fragment. -/
structure SplitRnd where
  speedRand : ℕ → ℚ
  dirVec : ℕ → Vec
  rotRand : ℕ → ℚ

/-- Offset direction of fragment i: the source uses
    fromAngle((i / 2) * 2 * PI, ...), whose direction is exactly (1,0)
    for i = 0 and (cos PI, sin PI) = (-1,0) for i = 1. -/
def splitOffsetDir (i : ℕ) : Vec := if i = 0 then ⟨1, 0⟩ else ⟨-1, 0⟩

/-- Asteroid.split: small asteroids yield no fragments; otherwise exactly
    two fragments of the next smaller size are constructed, each with a
    freshly randomized velocity fromAngle(angle, 50 + rand * 100) and a
    position offset of half the parent radius. -/
def Asteroid.split (a : Asteroid) (rnd : SplitRnd) : List Asteroid :=
  if a.size = AsteroidSize.small then []
  else
    let newSize := if a.size = AsteroidSize.large then AsteroidSize.medium
      else AsteroidSize.small
    (List.range 2).map (fun i =>
      let speed := 50 + rnd.speedRand i * 100
      let fragmentVelocity := Vector2Utils.multiply (rnd.dirVec i) speed
      let offsetDistance := a.radius * (1/2)
      let fragmentPosition := Vector2Utils.add a.position
        (Vector2Utils.multiply (splitOffsetDir i) offsetDistance)
      Asteroid.new fragmentPosition fragmentVelocity newSize (rnd.rotRand i))

/-- C6: split of a Small asteroid returns the empty list, and otherwise
    returns exactly 2 fragments of the next smaller size class
    (Large→Medium, Medium→Small), each constructed active with a freshly
    randomized velocity whose magnitude lies in the spawn range [50, 150):
    stated through the square, magnitude in [50,150) iff its square is in
    [2500, 22500) for a nonnegative magnitude.  Hypotheses: the random
    direction draws are unit vectors and the Math.random() draws lie in
    [0, 1). -/
theorem C6_asteroid_split (a : Asteroid) (rnd : SplitRnd)
    (hdir : ∀ i, Vector2Utils.magSq (rnd.dirVec i) = 1)
    (hrand : ∀ i, 0 ≤ rnd.speedRand i ∧ rnd.speedRand i < 1) :
    (a.size = AsteroidSize.small → a.split rnd = []) ∧
    (a.size ≠ AsteroidSize.small →
      (a.split rnd).length = 2 ∧
      ∀ f ∈ a.split rnd,
        f.size = (if a.size = AsteroidSize.large then AsteroidSize.medium
          else AsteroidSize.small) ∧
        f.active = true ∧
        2500 ≤ Vector2Utils.magSq f.velocity ∧
        Vector2Utils.magSq f.velocity < 22500) := by
  constructor
  · intro hs
    simp [Asteroid.split, hs]
  · intro hs
    constructor
    · simp [Asteroid.split, hs]
    · intro f hf
      simp only [Asteroid.split, hs, if_false, List.mem_map, List.mem_range] at hf
      obtain ⟨i, _, rfl⟩ := hf
      have h1 := hdir i
      have h2 := (hrand i).1
      have h3 := (hrand i).2
      have key : Vector2Utils.magSq (Vector2Utils.multiply (rnd.dirVec i)
          (50 + rnd.speedRand i * 100)) = (50 + rnd.speedRand i * 100)^2 := by
        simp only [Vector2Utils.multiply, Vector2Utils.magSq] at h1 ⊢
        nlinarith [h1]
      refine ⟨rfl, rfl, ?_, ?_⟩
      · simp only [Asteroid.new]
        rw [key]
        nlinarith [h2]
      · simp only [Asteroid.new]
        rw [key]
        nlinarith [h2, h3]

/-- A concrete large asteroid at the origin, used by the C6 witness. -/
def asteroidLarge0 : Asteroid :=
  Asteroid.new ⟨0, 0⟩ ⟨0, 0⟩ AsteroidSize.large (1/2)

/-- A concrete randomness source for split, used by the C6 witness. -/
def splitRnd0 : SplitRnd :=
  { speedRand := fun _ => 0, dirVec := fun _ => ⟨1, 0⟩, rotRand := fun _ => 1/2 }

/-- Witness for C6: a Large asteroid splits into exactly two fragments. -/
theorem C6_asteroid_split_witness :
    (asteroidLarge0.split splitRnd0).length = 2 :=
  ((C6_asteroid_split asteroidLarge0 splitRnd0
    (fun _ => by norm_num [Vector2Utils.magSq, splitRnd0])
    (fun _ => by norm_num [splitRnd0])).2 (by decide)).1

/- ===== Bullet (src/src/entities/Bullet.ts) ===== -/

/-- State of a Bullet.  The source stores velocity =
    fromAngle(direction, speed); the embedding keeps the angle and the
    fixed speed, which determine it.  The pierced-targets set is
    identity-keyed in the source; targets are modelled by numeric
    identities. -/
structure Bullet where
  position : Vec
  direction : ℚ
  lifeTime : ℚ
  maxLifeTime : ℚ
  speed : ℚ
  isPiercing : Bool
  damage : ℚ
  piercedTargets : List ℕ
  radius : ℚ
  active : Bool
deriving DecidableEq

/-- The Bullet constructor: radius 2 from the GameObject base, lifetime
    zero, speed 400, non-piercing, damage 1, empty pierced set. -/
def Bullet.new (position : Vec) (direction : ℚ) : Bullet :=
  { position := position
    direction := direction
    lifeTime := 0
    maxLifeTime := 2000
    speed := 400
    isPiercing := false
    damage := 1
    piercedTargets := []
    radius := 2
    active := true }

/-- Bullet.setPiercing: power bullets get radius 3. -/
def Bullet.setPiercing (b : Bullet) (p : Bool) : Bullet :=
  if p then { b with isPiercing := p, radius := 3 }
  else { b with isPiercing := p }

/-- Bullet.setDamage. -/
def Bullet.setDamage (b : Bullet) (d : ℚ) : Bullet := { b with damage := d }

/-- Bullet.hasHitTarget: membership in the pierced-targets set. -/
def Bullet.hasHitTarget (b : Bullet) (t : ℕ) : Bool := b.piercedTargets.contains t

/-- Bullet.addHitTarget: JavaScript Set.add, inserting without
    duplication. -/
def Bullet.addHitTarget (b : Bullet) (t : ℕ) : Bullet :=
  { b with piercedTargets :=
      if b.piercedTargets.contains t then b.piercedTargets
      else b.piercedTargets ++ [t] }

/-- Bullet.shouldDestroyOnHit. -/
def Bullet.shouldDestroyOnHit (b : Bullet) : Bool := !b.isPiercing

/- ===== WeaponSystem (src/src/systems/WeaponSystem.ts) ===== -/

inductive PowerUpType where
  | rapidFire
  | tripleShot
  | spreadShot
  | powerShot
  | shield
  | hyperspace
  | slowMotion
  | homingMissile
deriving DecidableEq

structure ActivePowerUp where
  type : PowerUpType
  timeRemaining : ℚ
deriving DecidableEq

/-- State of the WeaponSystem; baseShotCooldown is 250 ms at
    construction. -/
structure WeaponSystem where
  activePowerUps : List ActivePowerUp
  lastShotTime : ℚ
  baseShotCooldown : ℚ
deriving DecidableEq

/-- WeaponSystem.hasPowerUp. -/
def WeaponSystem.hasPowerUp (ws : WeaponSystem) (t : PowerUpType) : Bool :=
  ws.activePowerUps.any (fun p => p.type = t)

/-- WeaponSystem.getCurrentShotCooldown: rapid fire shortens the
    cooldown to 30 percent. -/
def WeaponSystem.getCurrentShotCooldown (ws : WeaponSystem) : ℚ :=
  if ws.hasPowerUp PowerUpType.rapidFire then ws.baseShotCooldown * (3/10)
  else ws.baseShotCooldown

/-- WeaponSystem.canShoot at the current time (Date.now() in source). -/
def WeaponSystem.canShoot (ws : WeaponSystem) (now : ℚ) : Bool :=
  now - ws.lastShotTime ≥ ws.getCurrentShotCooldown

/-- WeaponSystem.shoot: on cooldown returns no bullets and leaves the
    state unchanged; otherwise records the shot time and produces the
    triple pattern if triple-shot is active, else the five-bullet spread
    if spread-shot is active (spreadAngle 0.15), else a single bullet;
    power shot then makes every produced bullet piercing with damage 2. -/
def WeaponSystem.shoot (ws : WeaponSystem) (now : ℚ) (position : Vec)
    (direction : ℚ) : WeaponSystem × List Bullet :=
  if ¬ ws.canShoot now then (ws, [])
  else
    let ws1 : WeaponSystem := { ws with lastShotTime := now }
    let bullets : List Bullet :=
      if ws1.hasPowerUp PowerUpType.tripleShot then
        [Bullet.new position (direction - 2/10),
         Bullet.new position direction,
         Bullet.new position (direction + 2/10)]
      else if ws1.hasPowerUp PowerUpType.spreadShot then
        ([-2, -1, 0, 1, 2] : List ℚ).map
          (fun i => Bullet.new position (direction + i * (3/20)))
      else [Bullet.new position direction]
    let bullets :=
      if ws1.hasPowerUp PowerUpType.powerShot then
        bullets.map (fun b => (b.setPiercing true).setDamage 2)
      else bullets
    (ws1, bullets)

/-- A WeaponSystem with both triple-shot and spread-shot active and the
    cooldown long elapsed, used for C3. -/
def weaponSystemBoth : WeaponSystem :=
  { activePowerUps :=
      [⟨PowerUpType.tripleShot, 5000⟩, ⟨PowerUpType.spreadShot, 5000⟩]
    lastShotTime := 0
    baseShotCooldown := 250 }

/-- C3 counterexample: with spread-shot and triple-shot simultaneously
    active and the cooldown elapsed, a successful shoot call produces 3
    bullets (the triple-shot pattern), not the five-bullet spread the
    claim mandates: spread-shot does not take precedence. -/
theorem C3_counterexample :
    ((weaponSystemBoth.shoot 1000 ⟨0, 0⟩ 0).2).length = 3 ∧
    ((weaponSystemBoth.shoot 1000 ⟨0, 0⟩ 0).2).length ≠ 5 := by
  have h : ((weaponSystemBoth.shoot 1000 ⟨0, 0⟩ 0).2).length = 3 := by
    simp [WeaponSystem.shoot, WeaponSystem.canShoot,
      WeaponSystem.getCurrentShotCooldown, WeaponSystem.hasPowerUp,
      weaponSystemBoth]
    norm_num
  exact ⟨h, by omega⟩

/-- C3 (amended): whenever both the spread-shot and triple-shot effects
    are simultaneously active, a successful shoot call produces the
    TRIPLE-shot pattern of three bullets at angles direction - 0.2,
    direction, direction + 0.2: triple-shot takes precedence over
    spread-shot. -/
theorem C3_triple_over_spread (ws : WeaponSystem) (now : ℚ) (position : Vec)
    (direction : ℚ)
    (hfire : ws.canShoot now = true)
    (htriple : ws.hasPowerUp PowerUpType.tripleShot = true)
    (hspread : ws.hasPowerUp PowerUpType.spreadShot = true) :
    ((ws.shoot now position direction).2).map Bullet.direction =
      [direction - 2/10, direction, direction + 2/10] := by
  have htriple1 : WeaponSystem.hasPowerUp { ws with lastShotTime := now }
      PowerUpType.tripleShot = true := htriple
  by_cases hp : WeaponSystem.hasPowerUp { ws with lastShotTime := now }
      PowerUpType.powerShot = true
  · simp [WeaponSystem.shoot, hfire, htriple1, hp, Bullet.new,
      Bullet.setPiercing, Bullet.setDamage]
  · simp only [Bool.not_eq_true] at hp
    simp [WeaponSystem.shoot, hfire, htriple1, hp, Bullet.new]

/-- Witness for C3 (amended) at a concrete weapon system with both
    effects active. -/
theorem C3_triple_over_spread_witness :
    ((weaponSystemBoth.shoot 1000 ⟨0, 0⟩ 0).2).map Bullet.direction =
      [0 - 2/10, 0, 0 + 2/10] :=
  C3_triple_over_spread weaponSystemBoth 1000 ⟨0, 0⟩ 0
    (by simp [WeaponSystem.canShoot, WeaponSystem.getCurrentShotCooldown,
      WeaponSystem.hasPowerUp, weaponSystemBoth]; norm_num)
    (by simp [WeaponSystem.hasPowerUp, weaponSystemBoth])
    (by simp [WeaponSystem.hasPowerUp, weaponSystemBoth])

/- ===== WaveManager (src/src/systems/WaveManager.ts) ===== -/

inductive EnemyType where
  | scout
  | fighter
  | bomber
deriving DecidableEq

structure SpawnGroup where
  type : EnemyType
  count : ℕ
  spawnDelay : ℚ
deriving DecidableEq

structure WaveConfig where
  waveNumber : ℕ
  enemies : List SpawnGroup
  totalEnemies : ℕ
  bonusScore : ℚ
deriving DecidableEq

/-- State of the WaveManager.  enemiesRemaining is decremented without a
    lower bound in the source, hence an integer. -/
structure WaveManager where
  currentWave : ℕ
  enemiesRemaining : ℤ
  isWaveActive : Bool
  spawnTimer : ℚ
  currentSpawnGroup : ℕ
  enemiesSpawnedInGroup : ℕ
  currentWaveConfig : Option WaveConfig
deriving DecidableEq

/-- WaveManager.enemyDestroyed. -/
def WaveManager.enemyDestroyed (w : WaveManager) : WaveManager :=
  { w with enemiesRemaining := w.enemiesRemaining - 1 }

/-- The group count read by isWaveComplete:
    currentWaveConfig?.enemies.length ?? 0. -/
def WaveManager.numGroups (w : WaveManager) : ℕ :=
  match w.currentWaveConfig with
  | some c => c.enemies.length
  | none => 0

/-- WaveManager.isWaveComplete: the wave is active, no enemies remain,
    and every spawn group has been passed. -/
def WaveManager.isWaveComplete (w : WaveManager) : Bool :=
  w.isWaveActive && decide (w.enemiesRemaining ≤ 0) &&
    decide (w.currentSpawnGroup ≥ w.numGroups)

/-- C4: the wave-completion predicate is false whenever the remaining
    live enemy count is positive, regardless of spawn-group exhaustion,
    and it is true only when every spawn group has finished spawning
    (the spawn-group cursor has passed every group) and the remaining
    enemy count has reached zero (is no longer positive). -/
theorem C4_wave_completion (w : WaveManager) :
    (0 < w.enemiesRemaining → w.isWaveComplete = false) ∧
    (w.isWaveComplete = true →
      w.enemiesRemaining ≤ 0 ∧ w.numGroups ≤ w.currentSpawnGroup) := by
  constructor
  · intro h
    have hn : ¬ (w.enemiesRemaining ≤ 0) := by omega
    simp [WaveManager.isWaveComplete, hn]
  · intro h
    simp only [WaveManager.isWaveComplete, Bool.and_eq_true,
      decide_eq_true_eq] at h
    exact ⟨h.1.2, h.2⟩

/-- A wave state whose single spawn group has been passed and whose
    enemies are all destroyed, used by the C4 witness. -/
def waveDone : WaveManager :=
  { currentWave := 1
    enemiesRemaining := 0
    isWaveActive := true
    spawnTimer := 0
    currentSpawnGroup := 1
    enemiesSpawnedInGroup := 0
    currentWaveConfig := some ⟨1, [⟨EnemyType.scout, 4, 800⟩], 4, 500⟩ }

/-- Witness for C4 at a concrete completed wave state. -/
theorem C4_wave_completion_witness :
    waveDone.enemiesRemaining ≤ 0 ∧ waveDone.numGroups ≤ waveDone.currentSpawnGroup :=
  (C4_wave_completion waveDone).2 (by simp [WaveManager.isWaveComplete,
    WaveManager.numGroups, waveDone])

/-- Randomness consumed by getRandomSpawnPosition at attempt k: edge k is
    the Math.floor(Math.random() * 4) draw and coord k the Math.random()
    draw placing the position along the chosen edge. -/
structure SpawnRnd where
  edge : ℕ → ℕ
  coord : ℕ → ℚ

/-- One candidate edge position (margin = 50), as built by the switch in
    getRandomSpawnPosition; the default arm is unreachable for edge
    draws below 4 but kept as in the source. -/
def spawnCandidate (cw ch : ℚ) (r : SpawnRnd) (k : ℕ) : Vec :=
  match r.edge k with
  | 0 => ⟨r.coord k * cw, -50⟩
  | 1 => ⟨cw + 50, r.coord k * ch⟩
  | 2 => ⟨r.coord k * cw, ch + 50⟩
  | 3 => ⟨-50, r.coord k * ch⟩
  | _ => ⟨cw / 2, -50⟩

/-- The fixed fallback spawn position: top edge at canvasWidth / 2,
    y = -margin. -/
def spawnFallback (cw : ℚ) : Vec := ⟨cw / 2, -50⟩

/-- The bounded retry loop of getRandomSpawnPosition: fuel counts the
    attempts left out of maxAttempts = 20, k the current attempt index.
    The source accepts a candidate when distance >= 200
    (minDistanceFromPlayer); for nonnegative quantities this is the
    squared comparison distSq >= 200^2.  Without a player position the
    first candidate is returned unconditionally. -/
def spawnLoop (cw ch : ℚ) (player : Option Vec) (r : SpawnRnd) :
    ℕ → ℕ → Vec
  | 0, _ => spawnFallback cw
  | fuel + 1, k =>
    let position := spawnCandidate cw ch r k
    match player with
    | some p =>
      if Vector2Utils.distSq position p ≥ 200 ^ 2 then position
      else spawnLoop cw ch player r fuel (k + 1)
    | none => position

/-- WaveManager.getRandomSpawnPosition with maxAttempts = 20. -/
def WaveManager.getRandomSpawnPosition (cw ch : ℚ) (player : Option Vec)
    (r : SpawnRnd) : Vec :=
  spawnLoop cw ch player r 20 0

/-- If every attempt in the window is rejected as too close, the loop
    exhausts its fuel and returns the fallback position. -/
theorem spawnLoop_all_close (cw ch : ℚ) (p : Vec) (r : SpawnRnd) :
    ∀ fuel k,
      (∀ j, k ≤ j → j < k + fuel →
        Vector2Utils.distSq (spawnCandidate cw ch r j) p < 200 ^ 2) →
      spawnLoop cw ch (some p) r fuel k = spawnFallback cw := by
  intro fuel
  induction fuel with
  | zero => intro k _; rfl
  | succ n ih =>
    intro k hall
    have hk : Vector2Utils.distSq (spawnCandidate cw ch r k) p < 200 ^ 2 :=
      hall k le_rfl (by omega)
    have hnot : ¬ Vector2Utils.distSq (spawnCandidate cw ch r k) p ≥ 200 ^ 2 :=
      not_le.mpr hk
    simp only [spawnLoop, hnot, if_false]
    exact ih (k + 1) (fun j h1 h2 => hall j (by omega) (by omega))

/-- Every value the loop returns is the fallback or lies far enough from
    the player. -/
theorem spawnLoop_far (cw ch : ℚ) (p : Vec) (r : SpawnRnd) :
    ∀ fuel k,
      spawnLoop cw ch (some p) r fuel k = spawnFallback cw ∨
      Vector2Utils.distSq (spawnLoop cw ch (some p) r fuel k) p ≥ 200 ^ 2 := by
  intro fuel
  induction fuel with
  | zero => intro k; left; rfl
  | succ n ih =>
    intro k
    by_cases h : Vector2Utils.distSq (spawnCandidate cw ch r k) p ≥ 200 ^ 2
    · right
      simpa [spawnLoop, h] using h
    · simpa [spawnLoop, h] using ih (k + 1)

/-- C9: if all 20 random edge-position attempts fall closer than
    minDistanceFromPlayer (200) to the player, getRandomSpawnPosition
    returns the fixed fallback (canvasWidth / 2, -margin) instead of
    looping forever or skipping; and every result is either that
    fallback or lies at distance at least 200 from the player (squared
    comparison of nonnegative distances). -/
theorem C9_spawn_position_fallback (cw ch : ℚ) (p : Vec) (r : SpawnRnd) :
    ((∀ k, k < 20 →
        Vector2Utils.distSq (spawnCandidate cw ch r k) p < 200 ^ 2) →
      WaveManager.getRandomSpawnPosition cw ch (some p) r = spawnFallback cw) ∧
    (WaveManager.getRandomSpawnPosition cw ch (some p) r = spawnFallback cw ∨
      Vector2Utils.distSq (WaveManager.getRandomSpawnPosition cw ch (some p) r)
        p ≥ 200 ^ 2) := by
  constructor
  · intro hall
    exact spawnLoop_all_close cw ch p r 20 0
      (fun j _ h2 => hall j (by omega))
  · exact spawnLoop_far cw ch p r 20 0

/-- A concrete randomness source whose every attempt picks the top edge
    midpoint, used by the C9 witness. -/
def spawnRnd0 : SpawnRnd := { edge := fun _ => 0, coord := fun _ => 1/2 }

/-- Witness for C9: a player at the canvas centre of a 100 by 100 canvas
    is within 200 of every candidate, so the fallback is returned. -/
theorem C9_spawn_position_fallback_witness :
    WaveManager.getRandomSpawnPosition 100 100 (some ⟨50, 50⟩) spawnRnd0 =
      spawnFallback 100 :=
  (C9_spawn_position_fallback 100 100 ⟨50, 50⟩ spawnRnd0).1
    (fun k _ => by
      norm_num [spawnCandidate, spawnRnd0, Vector2Utils.distSq,
        Vector2Utils.magSq, Vector2Utils.subtract])

/- ===== Boss (src/src/entities/Boss.ts) ===== -/

/-- State of a Boss touched by takeDamage; movement fields (position,
    velocity, timers, targetPosition) are consumed only by update and
    render and are elided. -/
structure Boss where
  health : ℚ
  maxHealth : ℚ
  phase : ℕ
  attackCooldown : ℚ
deriving DecidableEq

/-- Boss.takeDamage: subtract the damage, then run the two sequential
    phase-transition checks on the remaining-health ratio (the second
    check reads the phase possibly just set by the first), and report
    whether health reached 0. -/
def Boss.takeDamage (b : Boss) (amount : ℚ) : Boss × Bool :=
  let health := b.health - amount
  let healthPercent := health / b.maxHealth
  let b1 : Boss :=
    if healthPercent < 1/2 ∧ b.phase = 0 then
      { b with
        health := health
        phase := 1
        attackCooldown := b.attackCooldown * (8/10) }
    else { b with health := health }
  let b2 : Boss :=
    if healthPercent < 1/4 ∧ b1.phase = 1 then
      { b1 with phase := 2, attackCooldown := b1.attackCooldown * (7/10) }
    else b1
  (b2, decide (b2.health ≤ 0))

/-- The phase dictated by a remaining-health ratio: 2 below one quarter,
    1 below one half, 0 otherwise. -/
def phaseOfRatio (pct : ℚ) : ℕ :=
  if pct < 1/4 then 2 else if pct < 1/2 then 1 else 0

/-- One takeDamage call moves the phase to the maximum of the old phase
    and the phase dictated by the new remaining-health ratio. -/
theorem boss_takeDamage_phase (b : Boss) (amount : ℚ) :
    ((b.takeDamage amount).1).phase =
      max b.phase (phaseOfRatio ((b.health - amount) / b.maxHealth)) := by
  unfold Boss.takeDamage phaseOfRatio
  dsimp only
  split_ifs with h1 h2 h3 h4 h5 h6 h7 h8 <;> dsimp only at *
  all_goals try (obtain ⟨hA, hB⟩ := h1)
  all_goals try (obtain ⟨hC, hD⟩ := h2)
  all_goals try omega
  all_goals try (exfalso; exact h2 ⟨h3, rfl⟩)
  all_goals try (exfalso; exact hB (by linarith))
  all_goals try (exfalso; exact h3 (by linarith))
  all_goals try (exfalso; exact h4 (by linarith))
  all_goals try (exfalso; exact h5 (by linarith))
  all_goals try (exfalso; obtain ⟨hC, hD⟩ := h3; exact h4 (by linarith))
  all_goals try (exfalso; obtain ⟨hC, hD⟩ := h3; omega)
  all_goals try (exfalso; exact h2 ⟨h5, rfl⟩)
  all_goals try (obtain ⟨hC, hD⟩ := h3; omega)
  all_goals try (exfalso; exact h8 h7.1)
  all_goals try (rename_i hq hh; have hz : ¬ b.phase = 0 := fun h => h1 ⟨hh, h⟩; omega)
  all_goals (rename_i hq; have hh2 := hq.trans (show (1:ℚ)/4 < 1/2 by norm_num); have hz : ¬ b.phase = 0 := fun h => h1 ⟨hh2, h⟩; have ho : ¬ b.phase = 1 := fun h => h7 ⟨hq, h⟩; omega)

/-- C7: one takeDamage call sets the phase to the maximum of the old
    phase and the phase dictated by the new remaining-health ratio
    (phaseOfRatio: at least 1 once health is below 50 percent of
    maximum, 2 once below 25 percent), so escalation is driven only by
    the health ratio; and across any sequence of takeDamage calls the
    phase never decreases. -/
theorem C7_boss_phase (b : Boss) (amount : ℚ) (amounts : List ℚ) :
    ((b.takeDamage amount).1).phase =
      max b.phase (phaseOfRatio ((b.health - amount) / b.maxHealth)) ∧
    b.phase ≤ (amounts.foldl (fun s a => (s.takeDamage a).1) b).phase := by
  refine ⟨boss_takeDamage_phase b amount, ?_⟩
  induction amounts generalizing b with
  | nil => exact le_refl _
  | cons a rest ih =>
    simp only [List.foldl_cons]
    exact le_trans
      (by rw [boss_takeDamage_phase]; exact le_max_left _ _) (ih _)

/- ===== AchievementTracker (src/src/entities/HomingMissile.ts, first
   AchievementTracker class, lines 316-557) ===== -/

inductive AchievementKind where
  | combo
  | killStreak
  | powerUpStreak
  | waveClear
  | bossKill
  | perfectAccuracy
deriving DecidableEq

/-- An Achievement; the display fields text, color, scale and duration
    are render-only and elided. -/
structure Achievement where
  kind : AchievementKind
  points : ℚ
deriving DecidableEq

/-- State of the AchievementTracker. -/
structure AchievementTracker where
  killStreak : ℕ
  powerUpStreak : ℕ
  lastKillTime : ℚ
  comboCount : ℕ
  comboMultiplier : ℚ
  lastComboTime : ℚ
  comboDecayTimer : ℚ
deriving DecidableEq

/-- The field initializers of AchievementTracker. -/
def trackerInit : AchievementTracker :=
  { killStreak := 0
    powerUpStreak := 0
    lastKillTime := 0
    comboCount := 0
    comboMultiplier := 1
    lastComboTime := 0
    comboDecayTimer := 0 }

/-- The multiplier formula of updateComboMultiplier:
    min(1 + Math.floor(comboCount / 5) * 0.5, MAX_COMBO_MULTIPLIER)
    with MAX_COMBO_MULTIPLIER = 10; Math.floor of the quotient of
    naturals is natural division. -/
def comboMultiplierOf (c : ℕ) : ℚ := min (1 + ((c / 5 : ℕ) : ℚ) * (1/2)) 10

/-- AchievementTracker.updateComboMultiplier. -/
def AchievementTracker.updateComboMultiplier (t : AchievementTracker) :
    AchievementTracker :=
  { t with comboMultiplier := comboMultiplierOf t.comboCount }

/-- AchievementTracker.update: once idle past COMBO_TIMEOUT = 3000 ms,
    accumulate the decay timer and every 100 ms decay the combo by one
    (floored at 0, which natural subtraction gives) and refresh the
    multiplier. -/
def AchievementTracker.update (t : AchievementTracker)
    (deltaTime currentTime : ℚ) : AchievementTracker :=
  if currentTime - t.lastComboTime > 3000 then
    let t1 := { t with comboDecayTimer := t.comboDecayTimer + deltaTime }
    if t1.comboDecayTimer ≥ 100 then
      let t2 :=
        if t1.comboCount > 0 then
          AchievementTracker.updateComboMultiplier
            { t1 with comboCount := t1.comboCount - 1 }
        else t1
      { t2 with comboDecayTimer := 0 }
    else t1
  else t

/-- The combo thresholds COMBO_THRESHOLDS. -/
def COMBO_THRESHOLDS : List ℕ := [5, 10, 15, 25, 50, 100]

/-- The kill streak thresholds KILL_STREAK_THRESHOLDS. -/
def KILL_STREAK_THRESHOLDS : List ℕ := [10, 20, 30, 50, 80, 100]

/-- The power-up streak thresholds POWER_UP_STREAK_THRESHOLDS. -/
def POWER_UP_STREAK_THRESHOLDS : List ℕ := [3, 5, 8]

/-- createComboAchievement: points are combo * 10. -/
def createComboAchievement (combo : ℕ) : Achievement :=
  ⟨AchievementKind.combo, (combo : ℚ) * 10⟩

/-- createKillStreakAchievement: points are streak * 50. -/
def createKillStreakAchievement (streak : ℕ) : Achievement :=
  ⟨AchievementKind.killStreak, (streak : ℚ) * 50⟩

/-- createPowerUpStreakAchievement: points are streak * 25. -/
def createPowerUpStreakAchievement (streak : ℕ) : Achievement :=
  ⟨AchievementKind.powerUpStreak, (streak : ℚ) * 25⟩

/-- AchievementTracker.onKill: reset the kill streak if the gap since
    the last kill exceeds STREAK_TIMEOUT = 5000 ms, then bump both
    streak and combo, refresh the multiplier, and report the first
    threshold matched by exact equality (combo thresholds checked
    before kill-streak thresholds, as in the source loops). -/
def AchievementTracker.onKill (t : AchievementTracker) (currentTime : ℚ) :
    AchievementTracker × Option Achievement :=
  let t1 := if currentTime - t.lastKillTime > 5000 then
      { t with killStreak := 0 } else t
  let t2 := { t1 with
    killStreak := t1.killStreak + 1
    lastKillTime := currentTime
    comboCount := t1.comboCount + 1
    lastComboTime := currentTime
    comboDecayTimer := 0 }
  let t3 := t2.updateComboMultiplier
  let ach :=
    if t3.comboCount ∈ COMBO_THRESHOLDS then
      some (createComboAchievement t3.comboCount)
    else if t3.killStreak ∈ KILL_STREAK_THRESHOLDS then
      some (createKillStreakAchievement t3.killStreak)
    else none
  (t3, ach)

/-- AchievementTracker.onMiss: zero the combo only when it was at least
    5 (small combos are forgiven). -/
def AchievementTracker.onMiss (t : AchievementTracker) : AchievementTracker :=
  if t.comboCount ≥ 5 then { t with comboCount := 0, comboMultiplier := 1 }
  else t

/-- AchievementTracker.onPowerUpCollected. -/
def AchievementTracker.onPowerUpCollected (t : AchievementTracker) :
    AchievementTracker × Option Achievement :=
  let t1 := { t with powerUpStreak := t.powerUpStreak + 1 }
  (t1,
    if t1.powerUpStreak ∈ POWER_UP_STREAK_THRESHOLDS then
      some (createPowerUpStreakAchievement t1.powerUpStreak)
    else none)

/-- AchievementTracker.resetStreaks. -/
def AchievementTracker.resetStreaks (t : AchievementTracker) :
    AchievementTracker :=
  { t with
    killStreak := 0
    powerUpStreak := 0
    comboCount := 0
    comboMultiplier := 1
    lastComboTime := 0 }

/-- The tracker states reachable from the initial state by any sequence
    of update, onKill, onMiss, onPowerUpCollected and resetStreaks
    calls. -/
inductive TrackerReachable : AchievementTracker → Prop where
  | init : TrackerReachable trackerInit
  | update (t : AchievementTracker) (dt now : ℚ) :
      TrackerReachable t → TrackerReachable (t.update dt now)
  | onKill (t : AchievementTracker) (now : ℚ) :
      TrackerReachable t → TrackerReachable (t.onKill now).1
  | onMiss (t : AchievementTracker) :
      TrackerReachable t → TrackerReachable t.onMiss
  | onPowerUp (t : AchievementTracker) :
      TrackerReachable t → TrackerReachable t.onPowerUpCollected.1
  | reset (t : AchievementTracker) :
      TrackerReachable t → TrackerReachable t.resetStreaks

/-- The multiplier formula at zero combo gives the base value 1. -/
theorem comboMultiplierOf_zero : comboMultiplierOf 0 = 1 := by
  norm_num [comboMultiplierOf]

/-- C8: in every reachable state of the combo tracker the multiplier
    equals min(1 + floor(comboCount / 5) * 0.5, 10); the formula is a
    non-decreasing function of comboCount, and at comboCount 0 it gives
    the base value 1. -/
theorem C8_combo_multiplier (t : AchievementTracker)
    (h : TrackerReachable t) :
    t.comboMultiplier = comboMultiplierOf t.comboCount ∧
    (∀ c1 c2 : ℕ, c1 ≤ c2 → comboMultiplierOf c1 ≤ comboMultiplierOf c2) ∧
    comboMultiplierOf 0 = 1 := by
  refine ⟨?_, ?_, comboMultiplierOf_zero⟩
  · induction h with
    | init =>
      simp [trackerInit, comboMultiplierOf_zero]
    | update t dt now ht ih =>
      unfold AchievementTracker.update AchievementTracker.updateComboMultiplier
      dsimp only
      split_ifs <;> simp_all
    | onKill t now ht ih =>
      unfold AchievementTracker.onKill AchievementTracker.updateComboMultiplier
      dsimp only
      try rfl
      try split_ifs <;> simp_all
    | onMiss t ht ih =>
      unfold AchievementTracker.onMiss
      split_ifs <;> simp_all [comboMultiplierOf_zero]
    | onPowerUp t ht ih =>
      unfold AchievementTracker.onPowerUpCollected
      simpa using ih
    | reset t ht ih =>
      unfold AchievementTracker.resetStreaks
      simp [comboMultiplierOf_zero]
  · intro c1 c2 h12
    unfold comboMultiplierOf
    refine min_le_min ?_ le_rfl
    have hdiv : c1 / 5 ≤ c2 / 5 := Nat.div_le_div_right h12
    have : ((c1 / 5 : ℕ) : ℚ) ≤ ((c2 / 5 : ℕ) : ℚ) := by exact_mod_cast hdiv
    nlinarith [this]

/-- Witness for C8 at the initial tracker state. -/
theorem C8_combo_multiplier_witness :
    trackerInit.comboMultiplier = comboMultiplierOf trackerInit.comboCount :=
  (C8_combo_multiplier trackerInit TrackerReachable.init).1

/- ===== Shield (src/src/entities/Shield.ts) and the GameManager shield
   bookkeeping (src/src/managers/GameManager.ts) ===== -/

/-- State of a Shield.  Render-only data is kept (pulsePhase) since
    update mutates it. -/
structure Shield where
  position : Vec
  radius : ℚ
  active : Bool
  health : ℤ
  maxHealth : ℤ
  pulsePhase : ℚ
  duration : ℚ
  timeRemaining : ℚ
deriving DecidableEq

/-- The Shield constructor: position and radius follow the owner
    (radius + 15), health and maxHealth start at 3, the countdown at the
    given duration (10000 ms default). -/
def Shield.new (ownerPos : Vec) (ownerRadius : ℚ) (duration : ℚ) : Shield :=
  { position := ownerPos
    radius := ownerRadius + 15
    active := true
    health := 3
    maxHealth := 3
    pulsePhase := 0
    duration := duration
    timeRemaining := duration }

/-- Shield.update: follow the owner, count the timeout down, go inactive
    at or below 0, and advance the pulse (faster in the last 3
    seconds). -/
def Shield.update (s : Shield) (deltaTime : ℚ) (ownerPos : Vec) : Shield :=
  let s1 := { s with position := ownerPos }
  let s2 := { s1 with timeRemaining := s1.timeRemaining - deltaTime }
  let s3 := if s2.timeRemaining ≤ 0 then { s2 with active := false } else s2
  let urgencyFactor : ℚ := if s3.timeRemaining < 3000 then 2 else 1
  { s3 with pulsePhase := s3.pulsePhase + 4 * urgencyFactor * (deltaTime / 1000) }

/-- Shield.takeDamage: decrement health and report destruction at or
    below 0. -/
def Shield.takeDamage (s : Shield) : Shield × Bool :=
  let s1 := { s with health := s.health - 1 }
  (s1, decide (s1.health ≤ 0))

/-- Shield.isExpired. -/
def Shield.isExpired (s : Shield) : Bool :=
  decide (s.timeRemaining ≤ 0) || !s.active

/-- The GameManager prune of the shield slot at the end of update:
    if (shield && (shield.getHealth() <= 0 || shield.isExpired()))
    shield = null. -/
def pruneShield (o : Option Shield) : Option Shield :=
  match o with
  | some s => if s.health ≤ 0 ∨ s.isExpired then none else some s
  | none => none

/-- The GameManager shield-absorption step of the ship-enemy collision
    block: the shield takes one hit and is dropped exactly when
    takeDamage reports destruction. -/
def absorbHit (o : Option Shield) : Option Shield :=
  match o with
  | some s =>
    let r := s.takeDamage
    if r.2 then none else some r.1
  | none => none

/-- Iterating absorbHit below the health bound keeps the shield, each
    hit taking one health point and touching nothing else. -/
theorem absorbHit_iterate (k : ℕ) : ∀ s : Shield, (k : ℤ) < s.health →
    ∃ s2, absorbHit^[k] (some s) = some s2 ∧ s2.health = s.health - k ∧
      s2.timeRemaining = s.timeRemaining ∧ s2.active = s.active := by
  induction k with
  | zero =>
    intro s h
    exact ⟨s, rfl, by simp, rfl, rfl⟩
  | succ n ih =>
    intro s h
    push_cast at h
    have hpos : ¬ (s.health - 1 ≤ 0) := by omega
    have hstep : absorbHit (some s) = some { s with health := s.health - 1 } := by
      simp [absorbHit, Shield.takeDamage, hpos]
    rw [Function.iterate_succ_apply, hstep]
    obtain ⟨s2, h1, h2, h3, h4⟩ :=
      ih { s with health := s.health - 1 } (by dsimp only; push_cast; omega)
    refine ⟨s2, h1, ?_, h3, h4⟩
    dsimp only at h2
    rw [h2]
    push_cast
    ring

/-- C5: a fresh shield persists through its first two absorbed hits
    (health 3 - k after k < 3 hits) and is discarded exactly on the
    third; and, independently, once its countdown reaches 0 or below
    during an update it is pruned even with health remaining, while
    with time and health both positive the prune keeps it. -/
theorem C5_shield_lifetime (p : Vec) (r d : ℚ) (k : ℕ) (hk : k < 3)
    (s : Shield) (dt : ℚ) (p2 : Vec) :
    (∃ s2, absorbHit^[k] (some (Shield.new p r d)) = some s2 ∧
      s2.health = 3 - (k : ℤ)) ∧
    absorbHit^[3] (some (Shield.new p r d)) = none ∧
    (s.active = true → 0 < s.health → s.timeRemaining - dt ≤ 0 →
      pruneShield (some (s.update dt p2)) = none) ∧
    (s.active = true → 0 < s.health → 0 < s.timeRemaining - dt →
      pruneShield (some (s.update dt p2)) = some (s.update dt p2)) := by
  refine ⟨?_, ?_, ?_, ?_⟩
  · obtain ⟨s2, h1, h2, _, _⟩ :=
      absorbHit_iterate k (Shield.new p r d) (by simp [Shield.new]; omega)
    exact ⟨s2, h1, by simpa [Shield.new] using h2⟩
  · obtain ⟨s2, h1, h2, _, _⟩ :=
      absorbHit_iterate 2 (Shield.new p r d) (by simp [Shield.new])
    have hdead : s2.health - 1 ≤ 0 := by
      simp [Shield.new] at h2
      omega
    have : absorbHit (some s2) = none := by
      simp [absorbHit, Shield.takeDamage, hdead]
    rw [show (3 : ℕ) = 2 + 1 from rfl, Function.iterate_succ_apply', h1, this]
  · intro hact hh ht
    simp only [Shield.update, pruneShield, Shield.isExpired]
    rw [if_pos ht]
    simp
  · intro hact hh ht
    have ht2 : ¬ (s.timeRemaining - dt ≤ 0) := by linarith
    have h_tr : (s.update dt p2).timeRemaining = s.timeRemaining - dt := by
      simp [Shield.update, ht2]
    have h_act : (s.update dt p2).active = s.active := by
      simp [Shield.update, ht2]
    have h_heal : (s.update dt p2).health = s.health := by
      simp [Shield.update, ht2]
    have hexp : (s.update dt p2).isExpired = false := by
      simp [Shield.isExpired, h_tr, h_act, hact, ht2]
    have hcond : ¬ ((s.update dt p2).health ≤ 0 ∨
        (s.update dt p2).isExpired = true) := by
      rw [h_heal, hexp]
      simp
      omega
    simp only [pruneShield]
    rw [if_neg hcond]

/-- Witness for C5: the third hit discards a fresh default shield. -/
theorem C5_shield_lifetime_witness :
    absorbHit^[3] (some (Shield.new ⟨0, 0⟩ 8 10000)) = none :=
  (C5_shield_lifetime ⟨0, 0⟩ 8 10000 2 (by decide)
    (Shield.new ⟨0, 0⟩ 8 10000) 10000 ⟨0, 0⟩).2.1

/- ===== GameObject.checkCollision (src/src/core/GameObject.ts) ===== -/

/-- The GameObject fields read by checkCollision. -/
structure Body where
  active : Bool
  position : Vec
  radius : ℚ
deriving DecidableEq

/-- GameObject.checkCollision: false unless both objects are active,
    then distance < radius sum.  The source compares
    sqrt(dx*dx + dy*dy) < r; for a nonnegative radicand this holds iff
    0 < r and the radicand is below r^2, which is the comparison used
    here. -/
def GameObject.checkCollision (a b : Body) : Bool :=
  a.active && b.active &&
    decide (0 < a.radius + b.radius ∧
      Vector2Utils.distSq a.position b.position < (a.radius + b.radius)^2)

def Asteroid.body (a : Asteroid) : Body := ⟨a.active, a.position, a.radius⟩

def Bullet.body (b : Bullet) : Body := ⟨b.active, b.position, b.radius⟩

/- ===== Spaceship (src/src/entities/HomingMissile.ts, Spaceship class)
   and the ship-asteroid block of GameManager.checkCollisions ===== -/

/-- State of the Spaceship; movement scratch fields (thrust, turnSpeed
    and the speed constants) feed only update and are elided. -/
structure Spaceship where
  position : Vec
  velocity : Vec
  rotation : ℚ
  radius : ℚ
  active : Bool
  invulnerable : Bool
  invulnerabilityTime : ℚ
deriving DecidableEq

/-- The Spaceship constructor: radius 8, active, not invulnerable. -/
def Spaceship.new (position : Vec) : Spaceship :=
  { position := position
    velocity := ⟨0, 0⟩
    rotation := 0
    radius := 8
    active := true
    invulnerable := false
    invulnerabilityTime := 0 }

/-- Spaceship.canTakeDamage. -/
def Spaceship.canTakeDamage (s : Spaceship) : Bool := !s.invulnerable

def Spaceship.body (s : Spaceship) : Body := ⟨s.active, s.position, s.radius⟩

/-- The GameManager state read and written by spaceshipDestroyed and the
    ship-asteroid collision block. -/
structure ShipCollisionState where
  spaceship : Option Spaceship
  shield : Option Shield
  asteroids : List Asteroid
  lives : ℤ
  infiniteLives : Bool
  tracker : AchievementTracker
  isRespawning : Bool
  respawnTimer : ℚ
deriving DecidableEq

/-- GameManager.spaceshipDestroyed: guarded against double destruction,
    it deactivates and drops the ship, resets the shield slot, loses a
    life through Game.loseLife unless infinite lives, resets the
    achievement streaks, and schedules a respawn when lives remain. -/
def spaceshipDestroyed (g : ShipCollisionState) : ShipCollisionState :=
  match g.spaceship with
  | none => g
  | some s =>
    if s.active = false then g
    else
      let lives2 := if g.infiniteLives then g.lives else g.lives - 1
      let gameOverPath := lives2 ≤ 0 ∧ g.infiniteLives = false
      { g with
        spaceship := none
        shield := none
        lives := lives2
        tracker := g.tracker.resetStreaks
        isRespawning := if gameOverPath then g.isRespawning else true
        respawnTimer := if gameOverPath then g.respawnTimer else 0 }

/-- The Spaceship-vs-Asteroids block at the start of
    GameManager.checkCollisions (lines 761-777): if the ship is present,
    active and damageable, the first asteroid overlap destroys the ship
    (the loop then breaks).  No shield test appears on this path. -/
def shipVsAsteroids (g : ShipCollisionState) : ShipCollisionState :=
  match g.spaceship with
  | none => g
  | some s =>
    if s.active = false then g
    else if s.canTakeDamage then
      if g.asteroids.any (fun a => GameObject.checkCollision s.body a.body)
      then spaceshipDestroyed g
      else g
    else g

/-- A ship at the origin with a fresh full shield and one overlapping
    Large asteroid: the failing input for C1. -/
def c1State : ShipCollisionState :=
  { spaceship := some (Spaceship.new ⟨0, 0⟩)
    shield := some (Shield.new ⟨0, 0⟩ 8 10000)
    asteroids := [Asteroid.new ⟨0, 0⟩ ⟨0, 0⟩ AsteroidSize.large 0]
    lives := 3
    infiniteLives := false
    tracker := trackerInit
    isRespawning := false
    respawnTimer := 0 }

/-- C1: the ship-asteroid block of checkCollisions never consults the
    shield.  With the ship active and damageable, a full shield
    (3 hit points, 10000 ms left) present, and one overlapping asteroid,
    the block destroys the ship, loses a life and discards the shield,
    where the claim (and the shield power-up description, protection
    from asteroid impacts) requires the shield to absorb the hit and the
    ship to survive.  The shield is honoured only in the
    ship-enemy block (lines 1007-1027). -/
theorem C1_ship_asteroid_ignores_shield :
    c1State.shield = some (Shield.new ⟨0, 0⟩ 8 10000) ∧
    (shipVsAsteroids c1State).spaceship = none ∧
    (shipVsAsteroids c1State).lives = 2 ∧
    (shipVsAsteroids c1State).shield = none := by
  refine ⟨rfl, ?_, ?_, ?_⟩ <;>
    · simp [shipVsAsteroids, c1State, spaceshipDestroyed, Spaceship.new,
        Spaceship.canTakeDamage, GameObject.checkCollision, Spaceship.body,
        Asteroid.body, Asteroid.new, Asteroid.getRadiusForSize,
        Vector2Utils.distSq, Vector2Utils.magSq, Vector2Utils.subtract]
      try norm_num

/- ===== The Bullets-vs-Asteroids block of GameManager.checkCollisions
   (src/src/managers/GameManager.ts, lines 778-922) ===== -/

/-- Environment of one collision pass: the difficulty score multiplier
    (DifficultyManager.getScoreValue rounds baseScore times this), the
    outcome of the shouldSpawnPowerUp roll and the split randomness for
    the k-th resolution of the pass, and Date.now(). -/
structure BAEnv where
  scoreMultiplier : ℚ
  spawnRoll : ℕ → Bool
  splitRnd : ℕ → SplitRnd
  now : ℚ

/-- The GameManager collections and score touched by the block; power-up
    spawns are recorded by position. -/
structure BAState where
  bullets : List Bullet
  asteroids : List Asteroid
  powerUpsSpawned : List Vec
  score : ℚ
  tracker : AchievementTracker
deriving DecidableEq

/-- The body of asteroids[j], inactive-out-of-range. -/
def asteroidBodyAt (asts : List Asteroid) (j : ℕ) : Body :=
  match asts.get? j with
  | some a => a.body
  | none => ⟨false, ⟨0, 0⟩, 0⟩

/-- The inner asteroid loop for one bullet: scan indices j, j-1, ..., 0
    and return the first index whose asteroid the bullet overlaps (the
    source breaks after resolving it). -/
def findHitIdxFrom (b : Bullet) (asts : List Asteroid) : ℕ → Option ℕ
  | 0 => if GameObject.checkCollision b.body (asteroidBodyAt asts 0)
      then some 0 else none
  | j + 1 =>
    if GameObject.checkCollision b.body (asteroidBodyAt asts (j + 1))
    then some (j + 1) else findHitIdxFrom b asts j

/-- The first hit index of the inner loop, scanning from the top index
    asteroids.length - 1 downward. -/
def findHitIdx (b : Bullet) (asts : List Asteroid) : Option ℕ :=
  match asts.length with
  | 0 => none
  | n + 1 => findHitIdxFrom b asts n

/-- Resolution of a bullet-asteroid overlap: credit the combo-scaled,
    difficulty-rounded score, run the achievement tracker kill hook and
    credit any milestone points, split the asteroid and replace it by
    its fragments (splice at its index, push the fragments), roll the
    power-up drop, and remove the bullet at its index unconditionally:
    the source removes the bullet whether or not it is piercing. -/
def resolveHit (env : BAEnv) (st : BAState) (bulletIndex j k : ℕ) : BAState :=
  match st.asteroids.get? j with
  | none => st
  | some asteroid =>
    let baseScore := Asteroid.getScoreForSize asteroid.size
    let comboMultiplier := st.tracker.comboMultiplier
    let score := ((round (baseScore * comboMultiplier * env.scoreMultiplier) : ℤ) : ℚ)
    let score1 := st.score + score
    let r := st.tracker.onKill env.now
    let score2 := match r.2 with
      | some a => score1 + a.points
      | none => score1
    let fragments := asteroid.split (env.splitRnd k)
    { bullets := st.bullets.eraseIdx bulletIndex
      asteroids := st.asteroids.eraseIdx j ++ fragments
      powerUpsSpawned :=
        if env.spawnRoll k then st.powerUpsSpawned ++ [asteroid.position]
        else st.powerUpsSpawned
      score := score2
      tracker := r.1 }

/-- The outer bullet loop, iterating bullet indices downward; the fuel
    argument is the number of indices left, k counts resolutions (to
    index the randomness).  A bullet with no overlap is left alone;
    otherwise its first hit is resolved and the loop moves to the next
    lower index. -/
def bulletsVsAsteroidsGo (env : BAEnv) : ℕ → BAState → ℕ → BAState
  | 0, st, _ => st
  | i + 1, st, k =>
    match st.bullets.get? i with
    | none => bulletsVsAsteroidsGo env i st k
    | some b =>
      match findHitIdx b st.asteroids with
      | none => bulletsVsAsteroidsGo env i st k
      | some j => bulletsVsAsteroidsGo env i (resolveHit env st i j k) (k + 1)

/-- The Bullets-vs-Asteroids pass over all bullet indices. -/
def bulletsVsAsteroids (env : BAEnv) (st : BAState) : BAState :=
  bulletsVsAsteroidsGo env st.bullets.length st 0

/-- A piercing power bullet at the origin. -/
def piercingBullet : Bullet := (Bullet.new ⟨0, 0⟩ 0).setPiercing true

/-- Two small asteroids at the origin, both overlapping the bullet. -/
def c2Asteroids : List Asteroid :=
  [Asteroid.new ⟨0, 0⟩ ⟨0, 0⟩ AsteroidSize.small 0,
   Asteroid.new ⟨0, 0⟩ ⟨0, 0⟩ AsteroidSize.small 0]

/-- The failing input for C2: one piercing bullet overlapping two
    distinct active targets. -/
def c2State : BAState :=
  { bullets := [piercingBullet]
    asteroids := c2Asteroids
    powerUpsSpawned := []
    score := 0
    tracker := trackerInit }

/-- The concrete environment for C2. -/
def c2Env : BAEnv :=
  { scoreMultiplier := 1
    spawnRoll := fun _ => false
    splitRnd := fun _ => splitRnd0
    now := 1000 }

/-- C2: the pierced-target machinery of Bullet is never consulted by the
    collision pipeline, which removes every bullet on its first hit.  At
    the failing input (one piercing bullet overlapping two active small
    asteroids) the pass removes the bullet after resolving only the
    first target (the higher index), leaving the second overlapping
    target unresolved, where the claim requires a piercing bullet to
    remain active across multiple distinct targets. -/
theorem C2_piercing_bullet_removed_on_first_hit :
    piercingBullet.isPiercing = true ∧
    (bulletsVsAsteroids c2Env c2State).bullets = [] ∧
    (bulletsVsAsteroids c2Env c2State).asteroids =
      [Asteroid.new ⟨0, 0⟩ ⟨0, 0⟩ AsteroidSize.small 0] := by
  constructor
  · rfl
  constructor
  · simp [bulletsVsAsteroids, bulletsVsAsteroidsGo, c2State, c2Env,
      findHitIdx, findHitIdxFrom, asteroidBodyAt, c2Asteroids,
      GameObject.checkCollision, Bullet.body, Asteroid.body, Bullet.new,
      Bullet.setPiercing, piercingBullet, Asteroid.new,
      Asteroid.getRadiusForSize, Vector2Utils.distSq, Vector2Utils.magSq,
      Vector2Utils.subtract, resolveHit, Asteroid.split, List.eraseIdx,
      (show (0:ℚ) < 3 + 15 by norm_num),
      (show (0:ℚ) < (3 + 15)^2 by norm_num)]
  · simp [bulletsVsAsteroids, bulletsVsAsteroidsGo, c2State, c2Env,
      findHitIdx, findHitIdxFrom, asteroidBodyAt, c2Asteroids,
      GameObject.checkCollision, Bullet.body, Asteroid.body, Bullet.new,
      Bullet.setPiercing, piercingBullet, Asteroid.new,
      Asteroid.getRadiusForSize, Vector2Utils.distSq, Vector2Utils.magSq,
      Vector2Utils.subtract, resolveHit, Asteroid.split, List.eraseIdx,
      (show (0:ℚ) < 3 + 15 by norm_num),
      (show (0:ℚ) < (3 + 15)^2 by norm_num)]
